import Mathlib

/-!
Verification of the blok-mcp transport bridge (src/blok_mcp/__main__.py and
src/blok_mcp/http_server.py), shallowly embedded in Lean 4.

Python optional-string values are modelled as `Option String`; Python string
truthiness (`if s:` is false for both `None` and `""`) is the `truthy`
predicate below.  Components that live in files absent from the source tree
(`config.py`, `mcp_server.py`) are modelled from the specification and marked
as such in their doc comments.
-/

namespace BlokMCP

/-- Python truthiness of an optional string: `None` and `""` are falsy,
every other string is truthy. -/
def truthy : Option String → Bool
  | none => false
  | some s => !s.isEmpty

/-- One of the three startup authentication modes (spec §3). -/
inductive AuthenticationPosture where
  | PreAuthToken (token : String)
  | AutoLogin (email password : String)
  | Unauthenticated
deriving DecidableEq, Repr

/-- The three `BlokMCPServer` constructor arguments computed inside `main`
(`__main__.py`):
`pre_auth_token = config.access_token if config.access_token else None`,
`auto_auth_email = config.email if config.email and config.password else None`,
`auto_auth_password = config.password if config.email and config.password else None`. -/
def stdioAuthArgs (access_token email password : Option String) :
    Option String × Option String × Option String :=
  ((if truthy access_token then access_token else none),
   (if truthy email && truthy password then email else none),
   (if truthy email && truthy password then password else none))

/-- The three `BlokMCPServer` constructor arguments computed inside
`get_mcp_server` (`http_server.py`); the three lines are verbatim the same
as in `__main__.main`. -/
def httpAuthArgs (access_token email password : Option String) :
    Option String × Option String × Option String :=
  ((if truthy access_token then access_token else none),
   (if truthy email && truthy password then email else none),
   (if truthy email && truthy password then password else none))

/-- Modelled from the spec: `BlokMCPServer.__init__` (`mcp_server.py`, not in
the source tree) turns its `(pre_auth_token, auto_auth_email,
auto_auth_password)` arguments into a posture by the fixed priority of §4.1:
a present token wins, else a complete email/password pair, else
unauthenticated. -/
def postureOfArgs : Option String × Option String × Option String → AuthenticationPosture
  | (some t, _, _) => .PreAuthToken t
  | (none, some e, some p) => .AutoLogin e p
  | (none, _, _) => .Unauthenticated

/-- The priority table of spec §4.1, written directly from the spec's words,
as a function of the three raw optional inputs (for comparison with the
composition of the code's argument resolution and posture application). -/
def specPosture (token email password : Option String) : AuthenticationPosture :=
  if truthy token then .PreAuthToken (token.getD "")
  else if truthy email && truthy password then
    .AutoLogin (email.getD "") (password.getD "")
  else .Unauthenticated

/-- C1: for every combination of the three optional startup inputs, the
resolved posture follows the fixed priority of §4.1: a present (truthy) token
yields `PreAuthToken` with that token, otherwise a complete email/password
pair yields `AutoLogin` with that pair, otherwise — including the partial
pairs email-without-password and password-without-email — the posture is
`Unauthenticated`. -/
theorem C1_posture_priority (token email password : Option String) :
    postureOfArgs (httpAuthArgs token email password) =
      specPosture token email password := by
  have hsome : ∀ (t : String) (x y : Option String),
      postureOfArgs (some t, x, y) = .PreAuthToken t := fun _ _ _ => rfl
  have hauto : ∀ e p : String,
      postureOfArgs (none, some e, some p) = .AutoLogin e p := fun _ _ => rfl
  have hnn : ∀ y : Option String,
      postureOfArgs (none, none, y) = .Unauthenticated := fun _ => rfl
  have hsn : ∀ e : String,
      postureOfArgs (none, some e, none) = .Unauthenticated := fun _ => rfl
  cases token <;> cases email <;> cases password <;>
    simp only [httpAuthArgs, specPosture, truthy, Bool.not_false, Bool.not_true] <;>
    split_ifs <;>
    simp_all [hsome, hauto, hnn, hsn, Option.getD]

/-- C7: the stdio-mode entrypoint (`__main__.main`) and the HTTP-mode
entrypoint (`http_server.get_mcp_server`) compute identical
`(pre_auth_token, auto_auth_email, auto_auth_password)` constructor
arguments for every combination of the three inputs. -/
theorem C7_entrypoints_agree (token email password : Option String) :
    stdioAuthArgs token email password = httpAuthArgs token email password :=
  rfl

/-- Mutable authentication state of one server instance (spec §3):
an optional stored credential and the authenticated flag. -/
structure SessionManager where
  credential : Option String
  is_authenticated : Bool
deriving DecidableEq, Repr

/-- Modelled from the spec: `SessionManager.set_token` (`mcp_server.py`, not in
the source tree) "mutates `credential` and flips `is_authenticated` to true;
it is a no-op if `is_authenticated` is already true" (§4.3). -/
def SessionManager.set_token (s : SessionManager) (v : String) : SessionManager :=
  if s.is_authenticated then s
  else { credential := some v, is_authenticated := true }

/-- Lookup in a Python `dict` built from a list of key/value pairs with a
default, as in `dict(scope.get("headers", [])).get(key, default)`:
the LAST pair with a matching key wins. -/
def dictGet (l : List (String × String)) (k d : String) : String :=
  match (l.filter (fun p => p.1 == k)).getLast? with
  | some p => p.2
  | none => d

/-- The session-injection step of `SSEMiddleware.handle_sse` (`http_server.py`):
`session_token = headers.get(b"x-session-token", b"").decode()`;
`if session_token and not mcp_server.session_manager.is_authenticated:
mcp_server.session_manager.set_token(session_token)`.  ASGI header names are
lowercase bytes; they are modelled as lowercase strings. -/
def handleSseInject (headers : List (String × String)) (s : SessionManager) :
    SessionManager :=
  let session_token := dictGet headers "x-session-token" ""
  if !session_token.isEmpty && !s.is_authenticated then
    s.set_token session_token
  else s

/-- C2: on an SSE handshake, `set_token` runs only when the header carries a
nonempty value and `is_authenticated` is false at that moment; a handshake on
an already-authenticated server changes nothing, any state change sets
`is_authenticated`, and when injection does fire the header value becomes the
stored credential. -/
theorem C2_injection_guard (headers : List (String × String)) (s : SessionManager) :
    (s.is_authenticated = true → handleSseInject headers s = s) ∧
    (handleSseInject headers s ≠ s →
      dictGet headers "x-session-token" "" ≠ "" ∧
      s.is_authenticated = false ∧
      (handleSseInject headers s).is_authenticated = true) ∧
    (s.is_authenticated = false → dictGet headers "x-session-token" "" ≠ "" →
      handleSseInject headers s =
        { credential := some (dictGet headers "x-session-token" ""),
          is_authenticated := true }) := by
  refine ⟨fun h => ?_, fun h => ?_, fun h hv => ?_⟩
  · simp [handleSseInject, h]
  · by_cases ha : s.is_authenticated
    · exact absurd (by simp [handleSseInject, ha]) h
    · by_cases hv : (dictGet headers "x-session-token" "").isEmpty
      · exact absurd (by simp [handleSseInject, hv]) h
      · refine ⟨by simpa [String.isEmpty_iff] using hv, by simpa using ha, ?_⟩
        simp [handleSseInject, hv, ha, SessionManager.set_token]
  · have hv' : (dictGet headers "x-session-token" "").isEmpty = false := by
      cases hx : (dictGet headers "x-session-token" "").isEmpty
      · rfl
      · exact absurd ((String.isEmpty_iff _).mp hx) hv
    simp [handleSseInject, hv', h, SessionManager.set_token]

/-- C2 witness: a handshake carrying a token on an already-authenticated
server leaves the session untouched. -/
theorem C2_injection_guard_witness :
    handleSseInject [("x-session-token", "tok")] ⟨some "old", true⟩ =
      ⟨some "old", true⟩ :=
  (C2_injection_guard [("x-session-token", "tok")] ⟨some "old", true⟩).1 rfl

/-- C9: an `X-Session-Token` header whose value is the empty string behaves
exactly like an absent header: no injection, the session manager unchanged,
even on a not-yet-authenticated server. -/
theorem C9_empty_header_like_absent (headers : List (String × String))
    (s : SessionManager) (hv : dictGet headers "x-session-token" "" = "") :
    handleSseInject headers s = s ∧
      handleSseInject headers s = handleSseInject [] s := by
  have h0 : dictGet [] "x-session-token" "" = "" := rfl
  have he : "".isEmpty = true := rfl
  constructor
  · simp [handleSseInject, hv, he]
  · simp [handleSseInject, hv, h0, he]

/-- C9 witness: an explicitly empty header on an unauthenticated server is a
no-op and agrees with the no-header handshake. -/
theorem C9_empty_header_like_absent_witness :
    handleSseInject [("x-session-token", "")] ⟨none, false⟩ = ⟨none, false⟩ ∧
      handleSseInject [("x-session-token", "")] ⟨none, false⟩ =
        handleSseInject [] ⟨none, false⟩ :=
  C9_empty_header_like_absent [("x-session-token", "")] ⟨none, false⟩ (by decide)

/-- The state of one `BlokMCPServer` instance that the bridge can observe:
its session manager.  Instances are modelled as values; returning the cached
value models returning the identical Python object. -/
structure ServerState where
  session_manager : SessionManager
deriving DecidableEq, Repr

/-- The process-wide SSE transport (`SseServerTransport("/messages/")`),
identified by its message-endpoint path. -/
structure SseTransport where
  endpoint : String
deriving DecidableEq, Repr

/-- From `http_server.get_mcp_server`: `global _mcp_server; if _mcp_server is
None: _mcp_server = BlokMCPServer(...); return _mcp_server`.  `construct` is
the outcome of the external `BlokMCPServer(...)` call, which may raise; the
assignment to `_mcp_server` runs only after the constructor returns, so on an
exception the cache slot is left as it was.  Returns the call's outcome and
the new value of the `_mcp_server` global. -/
def get_mcp_server (construct : Except String ServerState) :
    Option ServerState → Except String ServerState × Option ServerState
  | some s => (.ok s, some s)
  | none =>
    match construct with
    | .ok s => (.ok s, some s)
    | .error e => (.error e, none)

/-- From `http_server.get_sse_transport`: `global _sse_transport; if
_sse_transport is None: _sse_transport = SseServerTransport("/messages/");
return _sse_transport`.  `fresh` is the object a construction would produce.
Returns the transport and the new value of the `_sse_transport` global. -/
def get_sse_transport (fresh : SseTransport) :
    Option SseTransport → SseTransport × Option SseTransport
  | some t => (t, some t)
  | none => (fresh, some fresh)

/-- The two process-wide singleton slots of `http_server.py`
(`_mcp_server` and `_sse_transport`). -/
structure ProcState where
  mcp_server : Option ServerState
  sse_transport : Option SseTransport
deriving DecidableEq, Repr

/-- An inbound ASGI connection scope: `scope["type"]`, `scope.get("path","")`,
`scope["method"]`, `scope.get("headers",[])`. -/
structure Scope where
  type : String
  path : String
  method : String
  headers : List (String × String)
deriving DecidableEq, Repr

/-- Which of the three handlers a connection is dispatched to. -/
inductive Dispatch where
  | sse
  | messages
  | passthrough
deriving DecidableEq, Repr

/-- The routing decision of `SSEMiddleware.__call__` (`http_server.py`):
non-HTTP scopes pass through; `GET` on `/sse` or `/sse/` goes to
`handle_sse`; `POST` on `/messages/` goes to `handle_messages`; everything
else passes through to the wrapped Starlette app. -/
def SSEMiddleware.dispatch (scope : Scope) : Dispatch :=
  if scope.type ≠ "http" then .passthrough
  else if (scope.path = "/sse" ∨ scope.path = "/sse/") ∧ scope.method = "GET" then .sse
  else if scope.path = "/messages/" ∧ scope.method = "POST" then .messages
  else .passthrough

/-- Effect of `SSEMiddleware.handle_sse` on the process state: obtain the
singleton server (constructing it if absent — a constructor exception leaves
the cache slot as `get_mcp_server` does and skips the rest), obtain the
singleton transport, then run the header-injection step on the shared
session manager.  The cached server object is the one mutated. -/
def SSEMiddleware.handle_sse_state (scope : Scope)
    (construct : Except String ServerState) (fresh : SseTransport)
    (σ : ProcState) : ProcState :=
  match get_mcp_server construct σ.mcp_server with
  | (.error _, cache) => { σ with mcp_server := cache }
  | (.ok s, _) =>
    let tcache := (get_sse_transport fresh σ.sse_transport).2
    let s' := { s with session_manager := handleSseInject scope.headers s.session_manager }
    { mcp_server := some s', sse_transport := tcache }

/-- Effect of `SSEMiddleware.handle_messages` on the process state: it only
obtains the singleton transport (`get_sse_transport`) and forwards the body
to `sse.handle_post_message`; the server singleton is never consulted. -/
def SSEMiddleware.handle_messages_state (fresh : SseTransport)
    (σ : ProcState) : ProcState :=
  { σ with sse_transport := (get_sse_transport fresh σ.sse_transport).2 }

/-- Effect of one `SSEMiddleware.__call__` on the process state, with the
same `if`/`elif` structure as the source. -/
def SSEMiddleware.call_state (scope : Scope)
    (construct : Except String ServerState) (fresh : SseTransport)
    (σ : ProcState) : ProcState :=
  if scope.type ≠ "http" then σ
  else if (scope.path = "/sse" ∨ scope.path = "/sse/") ∧ scope.method = "GET" then
    SSEMiddleware.handle_sse_state scope construct fresh σ
  else if scope.path = "/messages/" ∧ scope.method = "POST" then
    SSEMiddleware.handle_messages_state fresh σ
  else σ

/-- C3: every connection goes to exactly one handler, determined solely by
scope type, path and method: `.sse` exactly for an HTTP GET on `/sse` or
`/sse/`, `.messages` exactly for an HTTP POST on `/messages/`, and every
other connection — any other HTTP pair and any non-HTTP scope — passes
through with the process state (singletons and session manager) untouched. -/
theorem C3_routing (scope : Scope) :
    (SSEMiddleware.dispatch scope = .sse ↔
      scope.type = "http" ∧ (scope.path = "/sse" ∨ scope.path = "/sse/") ∧
        scope.method = "GET") ∧
    (SSEMiddleware.dispatch scope = .messages ↔
      scope.type = "http" ∧ scope.path = "/messages/" ∧ scope.method = "POST") ∧
    (SSEMiddleware.dispatch scope = .passthrough →
      ∀ construct fresh σ, SSEMiddleware.call_state scope construct fresh σ = σ) := by
  obtain ⟨ty, pa, me, he⟩ := scope
  refine ⟨?_, ?_, ?_⟩
  · simp only [SSEMiddleware.dispatch]
    split_ifs with h1 h2 h3 <;> simp_all
  · simp only [SSEMiddleware.dispatch]
    split_ifs with h1 h2 h3 <;> simp_all
  · intro hd construct fresh σ
    simp only [SSEMiddleware.dispatch] at hd
    simp only [SSEMiddleware.call_state]
    split_ifs with h1 h2 h3 <;> simp_all

/-- C3 witness: an HTTP GET for `/favicon.ico` is dispatched `.passthrough`
and leaves a concrete process state unchanged. -/
theorem C3_routing_witness :
    SSEMiddleware.call_state ⟨"http", "/favicon.ico", "GET", []⟩
      (.ok ⟨⟨none, false⟩⟩) ⟨"/messages/"⟩ ⟨none, none⟩ = ⟨none, none⟩ :=
  (C3_routing ⟨"http", "/favicon.ico", "GET", []⟩).2.2 (by decide)
    (.ok ⟨⟨none, false⟩⟩) ⟨"/messages/"⟩ ⟨none, none⟩

/-- C4: once a call to `get_mcp_server` has produced an instance, every later
call returns that identical instance and leaves the cache slot unchanged, no
matter what a fresh construction would have produced (so the constructor is
never run again and at most one instance ever exists); likewise
`get_sse_transport` returns the identical transport on every call after the
first. -/
theorem C4_singleton (construct construct' : Except String ServerState)
    (σ σ₁ : Option ServerState) (s : ServerState)
    (h : get_mcp_server construct σ = (.ok s, σ₁)) :
    get_mcp_server construct' σ₁ = (.ok s, σ₁) ∧
    ∀ (fresh fresh' : SseTransport) (τ : Option SseTransport),
      get_sse_transport fresh' (get_sse_transport fresh τ).2 =
        get_sse_transport fresh τ := by
  constructor
  · cases σ with
    | some s₀ =>
      simp only [get_mcp_server] at h
      obtain ⟨h1, h2⟩ := Prod.mk.injEq .. ▸ h
      cases h1
      cases h2
      rfl
    | none =>
      cases construct with
      | ok c =>
        simp only [get_mcp_server] at h
        obtain ⟨h1, h2⟩ := Prod.mk.injEq .. ▸ h
        cases h1
        cases h2
        rfl
      | error e => simp [get_mcp_server] at h
  · intro fresh fresh' τ
    cases τ <;> rfl

/-- C4 witness: a second call on the cache produced by a first successful
call returns the same instance, even with a different constructor outcome. -/
theorem C4_singleton_witness :
    get_mcp_server (.error "boom") (some ⟨⟨none, false⟩⟩) =
      (.ok ⟨⟨none, false⟩⟩, some ⟨⟨none, false⟩⟩) ∧
    get_sse_transport ⟨"/other/"⟩
        (get_sse_transport ⟨"/messages/"⟩ none).2 =
      get_sse_transport ⟨"/messages/"⟩ none :=
  ⟨(C4_singleton (.ok ⟨⟨none, false⟩⟩) (.error "boom") none
      (some ⟨⟨none, false⟩⟩) ⟨⟨none, false⟩⟩ rfl).1,
   (C4_singleton (.ok ⟨⟨none, false⟩⟩) (.error "boom") none
      (some ⟨⟨none, false⟩⟩) ⟨⟨none, false⟩⟩ rfl).2
      ⟨"/messages/"⟩ ⟨"/other/"⟩ none⟩

/-- C5: when construction raises on a cache miss, `get_mcp_server` propagates
the error and leaves the cache slot unset — no partially-constructed instance
is cached — and a subsequent call retries construction and can succeed. -/
theorem C5_no_poisoned_singleton (e : String) (s : ServerState) :
    get_mcp_server (.error e) none = (.error e, none) ∧
    get_mcp_server (.ok s) (get_mcp_server (.error e) none).2 =
      (.ok s, some s) :=
  ⟨rfl, rfl⟩

/-- C10: handling a POST to `/messages/` never reads or mutates the server
singleton or its session manager — only the transport slot can change. -/
theorem C10_messages_frame (fresh : SseTransport) (σ : ProcState) :
    (SSEMiddleware.handle_messages_state fresh σ).mcp_server = σ.mcp_server :=
  rfl

/-- A response from the downstream Starlette app: a JSON response with a
status code and a flat string object body, the router's 405 for a
path-matching route whose methods exclude the request method, or 404. -/
inductive AppResponse where
  | json (status : Nat) (body : List (String × String))
  | methodNotAllowed
  | notFound
deriving DecidableEq, Repr

/-- From `http_server.health_check`; `body` is the request body, unused. -/
def health_check (_body : String) : AppResponse :=
  .json 200 [("status", "ok"), ("service", "blok-mcp")]

/-- From `http_server.oauth_metadata`; depends only on the request's base
URL. -/
def oauth_metadata (baseUrl _body : String) : AppResponse :=
  .json 200
    [("issuer", baseUrl),
     ("authorization_endpoint", baseUrl ++ "/oauth/authorize"),
     ("token_endpoint", baseUrl ++ "/oauth/token")]

/-- From `http_server.oauth_authorize`: the fixed error payload, independent
of the request body. -/
def oauth_authorize (_body : String) : AppResponse :=
  .json 400
    [("error", "unsupported_grant_type"),
     ("error_description", "Use X-Session-Token header")]

/-- From `http_server.oauth_token`: the fixed error payload, independent of
the request body. -/
def oauth_token (_body : String) : AppResponse :=
  .json 400
    [("error", "unsupported_grant_type"),
     ("error_description", "Use X-Session-Token header")]

/-- The downstream Starlette app built by `create_app`, with its four routes
and their declared methods: `/health` GET, the OAuth metadata path GET,
`/oauth/authorize` GET and POST, `/oauth/token` POST only.  Route matching
follows Starlette's documented semantics: the first route whose path matches
handles the request, answering 405 Method Not Allowed when the method is not
among the route's declared methods; no path match gives 404. -/
def appDispatch (baseUrl path method body : String) : AppResponse :=
  if path = "/health" then
    if method = "GET" then health_check body else .methodNotAllowed
  else if path = "/.well-known/oauth-authorization-server" then
    if method = "GET" then oauth_metadata baseUrl body else .methodNotAllowed
  else if path = "/oauth/authorize" then
    if method = "GET" ∨ method = "POST" then oauth_authorize body
    else .methodNotAllowed
  else if path = "/oauth/token" then
    if method = "POST" then oauth_token body else .methodNotAllowed
  else .notFound

/-- C6 counterexample: a GET to `/oauth/token` does not receive the fixed
`unsupported_grant_type` payload — the route is declared with
`methods=["POST"]`, so the router answers 405 Method Not Allowed. -/
theorem C6_get_token_is_405 :
    appDispatch "http://h" "/oauth/token" "GET" "" = .methodNotAllowed ∧
      appDispatch "http://h" "/oauth/token" "GET" "" ≠ oauth_token "" := by
  decide

/-- C6 amended: a GET to `/oauth/authorize` — and a POST to either stub
endpoint — always returns the fixed `unsupported_grant_type` payload
directing the client to the `X-Session-Token` header, regardless of the
request body; a GET to `/oauth/token` instead receives the router's
405 Method Not Allowed. -/
theorem C6_oauth_stub_payload (baseUrl body : String) :
    appDispatch baseUrl "/oauth/authorize" "GET" body =
      .json 400
        [("error", "unsupported_grant_type"),
         ("error_description", "Use X-Session-Token header")] ∧
    appDispatch baseUrl "/oauth/authorize" "POST" body =
      appDispatch baseUrl "/oauth/authorize" "GET" body ∧
    appDispatch baseUrl "/oauth/token" "POST" body =
      appDispatch baseUrl "/oauth/authorize" "GET" body ∧
    appDispatch baseUrl "/oauth/token" "GET" body = .methodNotAllowed := by
  refine ⟨?_, ?_, ?_, ?_⟩ <;> simp [appDispatch, oauth_authorize, oauth_token]

/-- Outcome of `server.run()` inside `__main__.main`: normal completion, a
keyboard interrupt, or any other exception escaping startup or the run
loop. -/
inductive RunOutcome where
  | completed
  | keyboardInterrupt
  | exn (msg : String)
deriving DecidableEq, Repr

/-- From `__main__.main`'s `try`/`except` ladder: `KeyboardInterrupt` is
caught and answered with `sys.exit(0)`; any other `Exception` is caught and
answered with `sys.exit(1)`; normal return from `main` ends the process with
status 0. -/
def mainExitCode : RunOutcome → Nat
  | .completed => 0
  | .keyboardInterrupt => 0
  | .exn _ => 1

/-- C8: stdio-mode exits with status 0 on a graceful keyboard interrupt and
with a non-zero status on any other unhandled exception at startup. -/
theorem C8_exit_codes :
    mainExitCode .keyboardInterrupt = 0 ∧
      ∀ msg, mainExitCode (.exn msg) ≠ 0 :=
  ⟨rfl, fun _ h => Nat.one_ne_zero h⟩

end BlokMCP
